import Mathlib

/-!
Shallow embedding of `plugins/modules/cassandra_keyspace.py` from
`community.cassandra` (keyspace reconciliation module), together with
theorems settling the specification claims about it.

Conventions of the embedding:
* Python strings are Lean `String`s; `s[:-1]` is `pyChopLast`.
* Python dictionaries (here: the replication-settings map produced by
  `eval` plus the `durable_writes` entry) are association lists
  `List (String × PyVal)` with first-key-wins lookup and
  replace-or-append insertion, matching `dict` semantics for the
  operations the module performs.
* Python exceptions and `module.fail_json` terminations are modelled by
  `Except PyErr`: `PyErr.exc` is a raised exception (caught by the
  generic handler in `main`), `PyErr.failJson` is a `fail_json` call
  (which exits via `SystemExit` and is NOT caught by `except Exception`).
* Machine integers do not overflow here (Python ints are unbounded), so
  `Int` is used directly.
-/

/-- A Python value occurring in the parsed replication map: the `eval`'d
map literal holds strings or integers, and `get_keyspace_config` adds a
boolean under `'durable_writes'`. -/
inductive PyVal where
  | str (s : String)
  | int (n : Int)
  | bool (b : Bool)
deriving DecidableEq, Repr

/-- How the module run can fail: a raised Python exception (caught by the
broad `except Exception` in `main`) versus a `module.fail_json(...)` call
(raises `SystemExit`, which `except Exception` does not catch). -/
inductive PyErr where
  | exc (msg : String)
  | failJson (msg : String)
deriving DecidableEq, Repr

/-- The parsed keyspace configuration: a Python dict as an association list. -/
abbrev PyDict := List (String × PyVal)

/-- Python `d[k]` as an optional lookup (first matching key). -/
def pyGet (d : PyDict) (k : String) : Option PyVal :=
  match d with
  | [] => none
  | (k', v) :: rest => if k' = k then some v else pyGet rest k

/-- Python `d[k] = v`: replace the value in place if the key exists,
otherwise append the new pair (dicts preserve insertion order). -/
def pyDictInsert (d : PyDict) (k : String) (v : PyVal) : PyDict :=
  match d with
  | [] => [(k, v)]
  | (k', v') :: rest =>
    if k' = k then (k', v) :: rest else (k', v') :: pyDictInsert rest k v

/-- Python `d.keys()` in insertion order. -/
def pyKeys (d : PyDict) : List String := d.map Prod.fst

/-- Python `str(b)` for a bool: `"True"` / `"False"`. -/
def pyBoolRepr (b : Bool) : String := if b then "True" else "False"

/-- Python `s[:-1]`: drop the final character (identity on `""`). -/
def pyChopLast (s : String) : String := ⟨s.data.dropLast⟩

/-- Python `==` between the dynamically-typed values of the replication
map: numeric cross-type equality (`True == 1`), string equality, and
`False` across unrelated types. -/
def pyEq (a b : PyVal) : Bool :=
  match a, b with
  | .str s, .str t => s = t
  | .int m, .int n => m = n
  | .bool x, .bool y => x = y
  | .int m, .bool y => m = (if y then 1 else 0)
  | .bool x, .int n => (if x then (1 : Int) else 0) = n
  | _, _ => false

/-- Python `int(v)` on a replication-map value: identity on ints,
`1`/`0` on bools, and decimal parsing (optional sign, surrounding
spaces) on strings, raising `ValueError` otherwise. -/
def pyIntV (v : PyVal) : Except PyErr Int :=
  match v with
  | .int n => .ok n
  | .bool b => .ok (if b then 1 else 0)
  | .str s =>
    let t := (s.data.dropWhile (· = ' ')).reverse.dropWhile (· = ' ') |>.reverse
    let core : List Char :=
      match t with
      | '-' :: rest => rest
      | '+' :: rest => rest
      | _ => t
    if core ≠ [] ∧ core.all (·.isDigit) then
      let mag : Int := core.foldl (fun a c => a * 10 + (Int.ofNat (c.toNat - 48))) 0
      .ok (match t with
           | '-' :: _ => -mag
           | _ => mag)
    else
      .error (.exc ("ValueError: invalid literal for int() with base 10: " ++ s))

/-- Python `"\x7b0\x7d".format(v)` on a replication-map value. -/
def pyFormatV (v : PyVal) : String :=
  match v with
  | .str s => s
  | .int n => toString n
  | .bool b => pyBoolRepr b

/-! ## Statement builder (`create_alter_keyspace`) and drop -/

/-- One iteration of the datacenter loop:
`cql += " '\x7b0\x7d' : \x7b1\x7d,".format(str(dc), data_centres[dc])`. -/
def dcSeg (p : String × Int) : String :=
  " '" ++ p.1 ++ "' : " ++ toString p.2 ++ ","

/-- The `for dc in data_centres:` loop of `create_alter_keyspace`,
threading the accumulated `cql` string. -/
def dcLoop (acc : String) : List (String × Int) → String
  | [] => acc
  | p :: rest => dcLoop (acc ++ dcSeg p) rest

/-- `create_alter_keyspace(module, session, keyspace, replication_factor,
durable_writes, data_centres, is_alter)`: builds (and executes) the
CREATE/ALTER KEYSPACE statement, returning the CQL text.  `data_centres`
is `none` for Python `None`; note the source tests `is not None`, so an
empty dict still takes the NetworkTopologyStrategy branch. -/
def create_alter_keyspace (keyspace : String) (replication_factor : Int)
    (durable_writes : Bool) (data_centres : Option (List (String × Int)))
    (is_alter : Bool) : String :=
  let cql := if is_alter = false then "CREATE KEYSPACE " ++ keyspace ++ " "
             else "ALTER KEYSPACE " ++ keyspace ++ " "
  let cql :=
    match data_centres with
    | some dcs =>
      let cql := cql ++ "WITH REPLICATION = \x7b 'class' : 'NetworkTopologyStrategy', "
      pyChopLast (dcLoop cql dcs) ++ " \x7d"
    | none =>
      cql ++ "WITH REPLICATION = \x7b 'class' : 'SimpleStrategy', 'replication_factor': "
          ++ toString replication_factor ++ " \x7d"
  cql ++ " AND DURABLE_WRITES = " ++ pyBoolRepr durable_writes

/-- `drop_keyspace(session, keyspace)`: the CQL it executes. -/
def drop_keyspace_cql (keyspace : String) : String :=
  "DROP KEYSPACE " ++ keyspace

/-! ## Regex extractions of `get_keyspace_config` -/

/-- Does `pat` occur as a contiguous substring of `hay`? (Used to model
`re.search` of a literal pattern and to state containment claims.) -/
def strContainsSub (hay pat : List Char) : Bool :=
  match hay with
  | [] => pat = []
  | _ :: rest => pat.isPrefixOf hay || strContainsSub rest pat

/-- `re.search('DURABLE_WRITES = (True|False);', cql)` and `.group(0)`:
the first (leftmost) occurrence of either alternative, or `none`. -/
def searchDurableWrites : List Char → Option String
  | [] => none
  | c :: rest =>
    if ("DURABLE_WRITES = True;".data).isPrefixOf (c :: rest) then
      some "DURABLE_WRITES = True;"
    else if ("DURABLE_WRITES = False;".data).isPrefixOf (c :: rest) then
      some "DURABLE_WRITES = False;"
    else
      searchDurableWrites rest

/-- Given the characters after a candidate `'\x7b'`, the greedy `.*`
match of `r'\x7b(.*)\x7d'`: everything up to the LAST `'\x7d'` on the same
line (`.` does not match a newline), or `none` if no `'\x7d'` follows. -/
def greedyToLastBrace (rest : List Char) : Option (List Char) :=
  let seg := rest.takeWhile (· ≠ '\n')
  let r := seg.reverse
  let tl := r.dropWhile (· ≠ '\x7d')
  match tl with
  | [] => none
  | _ :: before => some before.reverse

/-- `re.search(r'\x7b(.*)\x7d', cql).group(0)`: leftmost `'\x7b'` that has a
`'\x7d'` later on its line, matched greedily to the last such `'\x7d'`. -/
def searchBraces : List Char → Option (List Char)
  | [] => none
  | c :: rest =>
    if c = '\x7b' then
      match greedyToLastBrace rest with
      | some mid => some ('\x7b' :: (mid ++ ['\x7d']))
      | none => searchBraces rest
    else
      searchBraces rest

/-! ## `eval` of the replication-map literal

The module runs Python `eval` on the extracted `\x7b...\x7d` fragment.  The
driver exports a flat map literal `\x7b'key': value, ...\x7d` with
single-quoted string keys and string/integer values; the embedding
parses exactly that grammar and treats anything else as an evaluation
error (modelled as a raised exception, like `eval` on bad input). -/

/-- Skip ASCII spaces. -/
def skipSpaces (l : List Char) : List Char := l.dropWhile (· = ' ')

/-- Parse a single-quoted string literal, returning content and rest. -/
def parseQuoted (l : List Char) : Option (String × List Char) :=
  match l with
  | '\'' :: rest =>
    let content := rest.takeWhile (· ≠ '\'')
    match rest.dropWhile (· ≠ '\'') with
    | '\'' :: after => some (⟨content⟩, after)
    | _ => none
  | _ => none

/-- Parse a value: quoted string, `True`/`False`, or a decimal integer
with optional leading minus sign. -/
def parseVal (l : List Char) : Option (PyVal × List Char) :=
  match parseQuoted l with
  | some (s, rest) => some (.str s, rest)
  | none =>
    if ("True".data).isPrefixOf l then some (.bool true, l.drop 4)
    else if ("False".data).isPrefixOf l then some (.bool false, l.drop 5)
    else
      let (sign, l') : Int × List Char :=
        match l with
        | '-' :: rest => (-1, rest)
        | _ => (1, l)
      let ds := l'.takeWhile (·.isDigit)
      if ds = [] then none
      else
        let mag : Int := ds.foldl (fun a c => a * 10 + (Int.ofNat (c.toNat - 48))) 0
        some (.int (sign * mag), l'.drop ds.length)

/-- Entry/continuation loop of the map-literal parser (fuel-driven). -/
def parseEntries (fuel : Nat) (l : List Char) (acc : PyDict) : Option PyDict :=
  match fuel with
  | 0 => none
  | fuel + 1 =>
    let l := skipSpaces l
    match l with
    | '\x7d' :: rest => if skipSpaces rest = [] then some acc else none
    | _ =>
      match parseQuoted l with
      | none => none
      | some (k, rest) =>
        match skipSpaces rest with
        | ':' :: rest2 =>
          match parseVal (skipSpaces rest2) with
          | none => none
          | some (v, rest3) =>
            let acc := pyDictInsert acc k v
            match skipSpaces rest3 with
            | ',' :: rest4 => parseEntries fuel rest4 acc
            | '\x7d' :: rest4 => if skipSpaces rest4 = [] then some acc else none
            | _ => none
        | _ => none

/-- `eval(repl_settings)` on the extracted `\x7b...\x7d` fragment. -/
def pyEvalReplMap (l : List Char) : Option PyDict :=
  match skipSpaces l with
  | '\x7b' :: rest => parseEntries (rest.length + 1) rest []
  | _ => none

/-! ## `get_keyspace_config` -/

/-- `bool(s)` on a Python string: non-empty is truthy. -/
def pyBoolOfStr (s : String) : Bool := s.data ≠ []

/-- Python `s.lower()`. -/
def pyLower (s : String) : String := ⟨s.data.map Char.toLower⟩

/-- `get_keyspace_config(module, cluster, keyspace)`, as a function of the
driver-exported CQL fragment (`get_keyspace` / `export_as_string()`):

* `repl_settings = re.search(r'\x7b(.*)\x7d', cql).group(0)` — an
  `AttributeError` escapes if there is no match (not caught);
* `dw = re.search('DURABLE_WRITES = (True|False);', cql).group(0)` with
  an `except AttributeError` fallback to the string `"true"`;
* `keyspace_config = eval(repl_settings)`;
* `keyspace_config['durable_writes'] = bool(dw.lower())` — NOTE: this is
  `bool` applied to a non-empty *string* (either the whole matched text
  or `"true"`), which is always `True` in Python. -/
def get_keyspace_config (cql : String) : Except PyErr PyDict :=
  match searchBraces cql.data with
  | none => .error (.exc "AttributeError: 'NoneType' object has no attribute 'group'")
  | some repl_settings =>
    let dw : String := (searchDurableWrites cql.data).getD "true"
    match pyEvalReplMap repl_settings with
    | none => .error (.exc "eval: invalid replication settings literal")
    | some keyspace_config =>
      .ok (pyDictInsert keyspace_config "durable_writes" (.bool (pyBoolOfStr (pyLower dw))))

/-! ## Diff (`keyspace_is_changed`) -/

/-- Python `d[k]` raising `KeyError` when absent. -/
def pyGetE (d : PyDict) (k : String) : Except PyErr PyVal :=
  match pyGet d k with
  | some v => .ok v
  | none => .error (.exc ("KeyError: '" ++ k ++ "'"))

/-- The `for dc in data_centres:` loop of the NetworkTopologyStrategy
branch: `changed` accumulates; `dc in cfg.keys()` is dict membership;
`int(...)` may raise mid-loop, aborting the whole run.  The desired
per-datacenter factors are integers, so `int(data_centres[dc])` is the
identity on them. -/
def ntsDcLoop (cfg : PyDict) : List (String × Int) → Bool → Except PyErr Bool
  | [], changed => .ok changed
  | (dc, n) :: rest, changed =>
    match pyGet cfg dc with
    | some v =>
      match pyIntV v with
      | .error e => .error e
      | .ok cv => ntsDcLoop cfg rest (changed || decide (n ≠ cv))
    | none => ntsDcLoop cfg rest true

/-- The removed-datacenter sweep: any live key that is neither a desired
datacenter nor one of `class`/`durable_writes` marks a change. -/
def ntsRemovedSweep (cfg : PyDict) (desired : List (String × Int)) : Bool :=
  (pyKeys cfg).any
    (fun k => !(desired.map Prod.fst).contains k && !(["class", "durable_writes"].contains k))

/-- The body of `keyspace_is_changed` after `get_keyspace_config`, as a
function of the parsed live configuration `cfg` and the desired spec.
`fail_json` on an unrecognized class is a `PyErr.failJson`; iterating a
`None` `data_centres` in the NetworkTopologyStrategy branch raises a
`TypeError`. -/
def keyspace_is_changed_cfg (cfg : PyDict) (replication_factor : Int)
    (durable_writes : Bool) (data_centres : Option (List (String × Int))) :
    Except PyErr Bool :=
  match pyGet cfg "class" with
  | none => .error (.exc "KeyError: 'class'")
  | some cls =>
    if pyEq cls (.str "SimpleStrategy") then
      match pyGetE cfg "replication_factor" with
      | .error e => .error e
      | .ok rv =>
        match pyIntV rv with
        | .error e => .error e
        | .ok rf =>
          if rf ≠ replication_factor then .ok true
          else
            match pyGetE cfg "durable_writes" with
            | .error e => .error e
            | .ok dwv => .ok (!pyEq dwv (.bool durable_writes))
    else if pyEq cls (.str "NetworkTopologyStrategy") then
      match pyGetE cfg "durable_writes" with
      | .error e => .error e
      | .ok dwv =>
        if !pyEq dwv (.bool durable_writes) then .ok true
        else
          match data_centres with
          | none => .error (.exc "TypeError: 'NoneType' object is not iterable")
          | some dcs =>
            match ntsDcLoop cfg dcs false with
            | .error e => .error e
            | .ok changed =>
              if changed = false then .ok (ntsRemovedSweep cfg dcs)
              else .ok changed
    else
      .error (.failJson ("Unknown Replication strategy: " ++ pyFormatV cls))

/-- `keyspace_is_changed(module, cluster, keyspace, ...)`: fetches and
parses the live configuration (here: from the driver-exported CQL
fragment) and diffs it against the desired spec. -/
def keyspace_is_changed (live_cql : String) (replication_factor : Int)
    (durable_writes : Bool) (data_centres : Option (List (String × Int))) :
    Except PyErr Bool :=
  match get_keyspace_config live_cql with
  | .error e => .error e
  | .ok cfg => keyspace_is_changed_cfg cfg replication_factor durable_writes data_centres

/-! ## Read/write session construction (`get_read_and_write_sessions`) -/

/-- The driver's `ConsistencyLevel.name_to_value` mapping (the module's
`consistency_level` choices are exactly these keys). -/
def name_to_value : List (String × Nat) :=
  [("ANY", 0), ("ONE", 1), ("TWO", 2), ("THREE", 3), ("QUORUM", 4),
   ("ALL", 5), ("LOCAL_QUORUM", 6), ("EACH_QUORUM", 7), ("SERIAL", 8),
   ("LOCAL_SERIAL", 9), ("LOCAL_ONE", 10)]

/-- A constructed `Cluster` handle: the arguments passed to the driver's
`Cluster(...)` constructor.  `profile = none` means no execution profile
was passed, so the handle uses the driver's default consistency level
(`LOCAL_ONE`); `profile = some v` means an `ExecutionProfile` with
consistency-level value `v` was installed as the default profile. -/
structure ClusterHandle where
  hosts : List String
  port : Int
  auth_provider : Option (String × String)
  ssl_context : Bool
  profile : Option Nat
deriving DecidableEq, Repr

/-- `get_read_and_write_sessions(login_host, login_port, auth_provider,
ssl_context, consistency_level)`: builds the `(read, write)` cluster
pair.  The `ExecutionProfile` is built first from
`ConsistencyLevel.name_to_value[consistency_level]` (a `KeyError` for an
unknown name); the read handle omits it for `ANY`/`EACH_QUORUM` and the
write handle omits it for `SERIAL`/`LOCAL_SERIAL`. -/
def get_read_and_write_sessions (login_host : List String) (login_port : Int)
    (auth_provider : Option (String × String)) (ssl_context : Bool)
    (consistency_level : String) : Except PyErr (ClusterHandle × ClusterHandle) :=
  match List.lookup consistency_level name_to_value with
  | none => .error (.exc ("KeyError: '" ++ consistency_level ++ "'"))
  | some v =>
    let cluster_r : ClusterHandle :=
      if ["ANY", "EACH_QUORUM"].contains consistency_level then
        ⟨login_host, login_port, auth_provider, ssl_context, none⟩
      else
        ⟨login_host, login_port, auth_provider, ssl_context, some v⟩
    let cluster_w : ClusterHandle :=
      if ["SERIAL", "LOCAL_SERIAL"].contains consistency_level then
        ⟨login_host, login_port, auth_provider, ssl_context, none⟩
      else
        ⟨login_host, login_port, auth_provider, ssl_context, some v⟩
    .ok (cluster_r, cluster_w)

/-! ## Top-level reconciliation (`main`, lines 422-484) -/

/-- Desired state of the keyspace. -/
inductive KsState where
  | present
  | absent
deriving DecidableEq, Repr

/-- The desired keyspace spec, as read from the module parameters. -/
structure KsSpec where
  name : String
  state : KsState
  replication_factor : Int
  durable_writes : Bool
  data_centres : Option (List (String × Int))
deriving DecidableEq, Repr

/-- The result dict passed to `module.exit_json`: `changed` and
`keyspace` are always present; `cql` only when set. -/
structure ModuleResult where
  changed : Bool
  keyspace : String
  cql : Option String
deriving DecidableEq, Repr

/-- How the invocation ends: `exit_json(**result)` or `fail_json(msg)`. -/
inductive Outcome where
  | exited (r : ModuleResult)
  | failed (msg : String)
deriving DecidableEq, Repr

/-- How an error from the reconciliation body surfaces: a `fail_json`
exits with its own message (its `SystemExit` is not caught), while a
raised exception is caught by `except Exception` and reported as
`"An error occured: ..."` (spelling as in the source). -/
def failOutcome : PyErr → Outcome
  | .failJson m => .failed m
  | .exc m => .failed ("An error occured: " ++ m)

/-- The reconciliation body of `main` (the `try:` block at lines
422-484), as a function of check mode, the existence-check answer, the
driver-exported CQL fragment for the keyspace, and the desired spec.
The second component collects the mutating CQL statements executed
(CREATE/ALTER via `create_alter_keyspace`, DROP via `drop_keyspace`). -/
def cassandra_main (check_mode ks_exists : Bool) (live_cql : String)
    (spec : KsSpec) : Outcome × List String :=
  if ks_exists then
    if check_mode then
      match spec.state with
      | .present =>
        match keyspace_is_changed live_cql spec.replication_factor
              spec.durable_writes spec.data_centres with
        | .ok changed => (.exited ⟨changed, spec.name, none⟩, [])
        | .error e => (failOutcome e, [])
      | .absent => (.exited ⟨true, spec.name, none⟩, [])
    else
      match spec.state with
      | .present =>
        match keyspace_is_changed live_cql spec.replication_factor
              spec.durable_writes spec.data_centres with
        | .ok true =>
          let cql := create_alter_keyspace spec.name spec.replication_factor
                       spec.durable_writes spec.data_centres true
          (.exited ⟨true, spec.name, some cql⟩, [cql])
        | .ok false => (.exited ⟨false, spec.name, none⟩, [])
        | .error e => (failOutcome e, [])
      | .absent =>
        (.exited ⟨true, spec.name, none⟩, [drop_keyspace_cql spec.name])
  else
    if check_mode then
      match spec.state with
      | .present => (.exited ⟨true, spec.name, none⟩, [])
      | .absent => (.exited ⟨false, spec.name, none⟩, [])
    else
      match spec.state with
      | .present =>
        let cql := create_alter_keyspace spec.name spec.replication_factor
                     spec.durable_writes spec.data_centres false
        (.exited ⟨true, spec.name, some cql⟩, [cql])
      | .absent => (.exited ⟨false, spec.name, none⟩, [])

/-- The `changed` value an invocation reports, if it exits successfully. -/
def changedOf : Outcome → Option Bool
  | .exited r => some r.changed
  | .failed _ => none

/-! ## Helper lemmas about the builder strings -/

theorem pyChopLast_data (s : String) : (pyChopLast s).data = s.data.dropLast := rfl

theorem str_data_append (s t : String) : (s ++ t).data = s.data ++ t.data :=
  String.data_append s t

/-- Chopping the last character of a string that ends in a comma. -/
theorem pyChopLast_comma (s : String) : pyChopLast (s ++ ",") = s := by
  apply String.ext
  rw [pyChopLast_data, str_data_append]
  exact List.dropLast_concat

/-- The datacenter pair text without its trailing comma. -/
def dcSegNC (p : String × Int) : String :=
  " '" ++ p.1 ++ "' : " ++ toString p.2

theorem dcSeg_eq_ncomma (p : String × Int) : dcSeg p = dcSegNC p ++ "," := rfl

/-- The comma-separated list of datacenter pairs, one per entry, as it
appears between the strategy header and the closing brace. -/
def dcPairsSpec : List (String × Int) → String
  | [] => ""
  | [p] => dcSegNC p
  | p :: q :: rest => dcSegNC p ++ "," ++ dcPairsSpec (q :: rest)

/-- The loop-then-chop of `create_alter_keyspace` yields exactly one
comma-separated pair per datacenter entry, appended to the accumulator. -/
theorem dcLoop_chop (dcs : List (String × Int)) (h : dcs ≠ []) :
    ∀ acc : String, pyChopLast (dcLoop acc dcs) = acc ++ dcPairsSpec dcs := by
  induction dcs with
  | nil => exact absurd rfl h
  | cons p rest ih =>
    intro acc
    match rest with
    | [] =>
      show pyChopLast (dcLoop (acc ++ dcSeg p) []) = acc ++ dcSegNC p
      show pyChopLast (acc ++ dcSeg p) = acc ++ dcSegNC p
      rw [dcSeg_eq_ncomma, ← String.append_assoc, pyChopLast_comma]
    | q :: rest' =>
      show pyChopLast (dcLoop (acc ++ dcSeg p) (q :: rest')) =
        acc ++ (dcSegNC p ++ "," ++ dcPairsSpec (q :: rest'))
      rw [ih (by simp) (acc ++ dcSeg p), dcSeg_eq_ncomma]
      rw [String.append_assoc, String.append_assoc]

/-! ## Desired spec rendered as a live configuration (for the diff claims) -/

/-- The live configuration dict corresponding exactly to a desired spec:
`SimpleStrategy` with the desired replication factor when no datacenter
map is given, `NetworkTopologyStrategy` with exactly the desired
per-datacenter factors otherwise, and the desired durable-writes flag.
This is the shape `get_keyspace_config` produces (replication values are
integer-valued; the `int(...)` coercions in the diff are then the
identity). -/
def desiredAsLive (spec : KsSpec) : PyDict :=
  match spec.data_centres with
  | none =>
    [("class", .str "SimpleStrategy"),
     ("replication_factor", .int spec.replication_factor),
     ("durable_writes", .bool spec.durable_writes)]
  | some dcs =>
    ("class", .str "NetworkTopologyStrategy") ::
      (dcs.map (fun p => (p.1, PyVal.int p.2)) ++
       [("durable_writes", .bool spec.durable_writes)])

/-- Well-formedness of a desired spec: datacenter names are distinct and
do not collide with the reserved `class` / `durable_writes` keys of the
configuration dict. -/
def KsSpecWF (spec : KsSpec) : Prop :=
  match spec.data_centres with
  | none => True
  | some dcs =>
    (dcs.map Prod.fst).Nodup ∧ ∀ p ∈ dcs, p.1 ≠ "class" ∧ p.1 ≠ "durable_writes"

theorem pyGet_append_right {l1 l2 : PyDict} {k : String} (h : ∀ p ∈ l1, p.1 ≠ k) :
    pyGet (l1 ++ l2) k = pyGet l2 k := by
  induction l1 with
  | nil => rfl
  | cons p rest ih =>
    show pyGet ((p.1, p.2) :: (rest ++ l2)) k = pyGet l2 k
    rw [pyGet, if_neg (h p (by simp))]
    exact ih (fun q hq => h q (by simp [hq]))

theorem pyGet_mem_nodup {l : List (String × Int)} {dc : String} {n : Int}
    (hnd : (l.map Prod.fst).Nodup) (hmem : (dc, n) ∈ l) :
    pyGet (l.map (fun p => (p.1, PyVal.int p.2))) dc = some (.int n) := by
  induction l with
  | nil => simp at hmem
  | cons p rest ih =>
    by_cases hk : p.1 = dc
    · show pyGet ((p.1, PyVal.int p.2) :: _) dc = some (.int n)
      rw [pyGet, if_pos hk]
      rcases List.mem_cons.mp hmem with heq | hrest
      · rw [← heq]
      · exfalso
        have : dc ∈ rest.map Prod.fst := List.mem_map.mpr ⟨(dc, n), hrest, rfl⟩
        rw [List.map_cons, List.nodup_cons] at hnd
        exact hnd.1 (hk ▸ this)
    · show pyGet ((p.1, PyVal.int p.2) :: _) dc = some (.int n)
      rw [pyGet, if_neg hk]
      rcases List.mem_cons.mp hmem with heq | hrest
      · exact absurd (congrArg Prod.fst heq).symm hk
      · exact ih (List.nodup_cons.mp (List.map_cons _ _ _ ▸ hnd)).2 hrest

/-- The inner datacenter loop is change-free when every desired entry is
found live with the same factor. -/
theorem ntsDcLoop_self (cfg : PyDict) (l : List (String × Int))
    (h : ∀ p ∈ l, pyGet cfg p.1 = some (.int p.2)) :
    ntsDcLoop cfg l false = .ok false := by
  induction l with
  | nil => rfl
  | cons p rest ih =>
    show ntsDcLoop cfg ((p.1, p.2) :: rest) false = .ok false
    rw [ntsDcLoop, h p (by simp)]
    show ntsDcLoop cfg rest (false || decide (p.2 ≠ p.2)) = .ok false
    simpa using ih (fun q hq => h q (by simp [hq]))

/-! ## Claim theorems -/

/-- The driver-exported CQL fragment used as the failing input for C1:
it contains the textual flag `DURABLE_WRITES = False;`. -/
def c1FailingInput : String :=
  "CREATE KEYSPACE mykeyspace WITH replication = \x7b'class': 'SimpleStrategy', 'replication_factor': '1'\x7d AND DURABLE_WRITES = False;"

/-- C1 (code bug): the claim says a fragment containing
`DURABLE_WRITES = False;` parses to `durable_writes = false`, but the
source computes `bool(dw.lower())` — `bool` of a non-empty *string* —
which is `True` for the matched text `"DURABLE_WRITES = False;"` just as
for `"DURABLE_WRITES = True;"` and for the fallback `"true"`.  On the
failing input (which does contain `DURABLE_WRITES = False;`) the
returned configuration therefore has `durable_writes = true`. -/
theorem claim_C1_failing_eval :
    strContainsSub c1FailingInput.data ("DURABLE_WRITES = False;".data) = true ∧
    get_keyspace_config c1FailingInput =
      .ok [("class", .str "SimpleStrategy"),
           ("replication_factor", .str "1"),
           ("durable_writes", .bool true)] :=
  ⟨rfl, rfl⟩

/-- C4 (counterexample): with an *empty but present* datacenter mapping,
`create_alter_keyspace` takes the `is not None` branch and emits a
NetworkTopologyStrategy statement (with a dangling comma) that contains
neither `SimpleStrategy` nor a `replication_factor` entry, refuting the
claim for the empty-mapping case. -/
theorem claim_C4_counterexample :
    create_alter_keyspace "mykeyspace" 3 true (some []) false =
      "CREATE KEYSPACE mykeyspace WITH REPLICATION = \x7b 'class' : 'NetworkTopologyStrategy', \x7d AND DURABLE_WRITES = True" ∧
    strContainsSub (create_alter_keyspace "mykeyspace" 3 true (some []) false).data
      ("SimpleStrategy".data) = false ∧
    strContainsSub (create_alter_keyspace "mykeyspace" 3 true (some []) false).data
      ("replication_factor".data) = false :=
  ⟨rfl, rfl, rfl⟩

/-- C4 (amended): only when the datacenter mapping is *absent* (`None`)
does `create_alter_keyspace` emit a SimpleStrategy statement, and then it
contains exactly `'replication_factor': <replicationFactor>` and no
datacenter entries; an empty (but present) mapping instead takes the
NetworkTopologyStrategy branch. -/
theorem claim_C4_amended_thm (ks : String) (rf : Int) (dw : Bool) (ia : Bool) :
    create_alter_keyspace ks rf dw none ia =
      (if ia = false then "CREATE KEYSPACE " ++ ks ++ " " else "ALTER KEYSPACE " ++ ks ++ " ")
        ++ "WITH REPLICATION = \x7b 'class' : 'SimpleStrategy', 'replication_factor': "
        ++ toString rf ++ " \x7d" ++ " AND DURABLE_WRITES = " ++ pyBoolRepr dw :=
  rfl

/-- C5: for a non-empty datacenter mapping, the emitted statement is the
NetworkTopologyStrategy header followed by exactly one `'<dc>' : <n>`
pair per entry (comma-separated, no extras, no omissions) and then
`AND DURABLE_WRITES = <bool>`. -/
theorem claim_C5 (ks : String) (rf : Int) (dw : Bool)
    (dcs : List (String × Int)) (ia : Bool) (h : dcs ≠ []) :
    create_alter_keyspace ks rf dw (some dcs) ia =
      (if ia = false then "CREATE KEYSPACE " ++ ks ++ " " else "ALTER KEYSPACE " ++ ks ++ " ")
        ++ "WITH REPLICATION = \x7b 'class' : 'NetworkTopologyStrategy', "
        ++ dcPairsSpec dcs ++ " \x7d" ++ " AND DURABLE_WRITES = " ++ pyBoolRepr dw := by
  show pyChopLast (dcLoop ((if ia = false then "CREATE KEYSPACE " ++ ks ++ " "
      else "ALTER KEYSPACE " ++ ks ++ " ")
      ++ "WITH REPLICATION = \x7b 'class' : 'NetworkTopologyStrategy', ") dcs) ++ " \x7d"
      ++ " AND DURABLE_WRITES = " ++ pyBoolRepr dw = _
  rw [dcLoop_chop dcs h]

/-- Witness for C5 at a concrete two-datacenter spec. -/
theorem claim_C5_witness :
    create_alter_keyspace "ks" 1 false (some [("london", 3), ("paris", 1)]) true =
      "ALTER KEYSPACE ks WITH REPLICATION = \x7b 'class' : 'NetworkTopologyStrategy',  'london' : 3, 'paris' : 1 \x7d AND DURABLE_WRITES = False" := by
  rw [claim_C5 "ks" 1 false [("london", 3), ("paris", 1)] true (by decide)]
  rfl

/-- C6: with the keyspace present and `state=absent` (non-check mode) the
run executes `DROP KEYSPACE <name>` and reports `changed=true`; the
repeated call (keyspace now absent, `state=absent`) executes nothing and
reports `changed=false`. -/
theorem claim_C6 (name live : String) (rf : Int) (dw : Bool)
    (dcs : Option (List (String × Int))) :
    cassandra_main false true live ⟨name, .absent, rf, dw, dcs⟩ =
      (.exited ⟨true, name, none⟩, [drop_keyspace_cql name]) ∧
    cassandra_main false false live ⟨name, .absent, rf, dw, dcs⟩ =
      (.exited ⟨false, name, none⟩, []) :=
  ⟨rfl, rfl⟩

theorem changedOf_failOutcome (e : PyErr) : changedOf (failOutcome e) = none := by
  cases e <;> rfl

/-- C3: a check-mode invocation executes no mutating statement, and the
`changed` value it reports (none, if the run fails) is the one the
equivalent non-check-mode invocation reports, for every combination of
keyspace existence and desired state. -/
theorem claim_C3 (ks_exists : Bool) (live : String) (spec : KsSpec) :
    (cassandra_main true ks_exists live spec).2 = [] ∧
    changedOf (cassandra_main true ks_exists live spec).1 =
      changedOf (cassandra_main false ks_exists live spec).1 := by
  obtain ⟨name, st, rf, dw, dcs⟩ := spec
  cases ks_exists with
  | false => cases st <;> exact ⟨rfl, rfl⟩
  | true =>
    cases st with
    | absent => exact ⟨rfl, rfl⟩
    | present =>
      cases h : keyspace_is_changed live rf dw dcs with
      | error e =>
        refine ⟨?_, ?_⟩ <;>
          simp [cassandra_main, h, changedOf_failOutcome]
      | ok b =>
        cases b <;> refine ⟨?_, ?_⟩ <;> simp [cassandra_main, h, changedOf]

/-- C10: the drop path reports `changed=true` with the keyspace name but
sets no `cql` field even though a DROP statement was executed; and a
`cql` field in the result can only arise from a non-check `state=present`
run (the create/alter paths). -/
theorem claim_C10 :
    (∀ (name live : String) (rf : Int) (dw : Bool) (dcs : Option (List (String × Int))),
      cassandra_main false true live ⟨name, .absent, rf, dw, dcs⟩ =
        (.exited { changed := true, keyspace := name, cql := none },
         ["DROP KEYSPACE " ++ name])) ∧
    (∀ (check ks_exists : Bool) (live : String) (spec : KsSpec) (r : ModuleResult),
      (cassandra_main check ks_exists live spec).1 = .exited r → r.cql ≠ none →
      spec.state = .present ∧ check = false) := by
  constructor
  · intro name live rf dw dcs
    rfl
  · intro check ks_exists live spec r hexit hcql
    obtain ⟨name, st, rf, dw, dcs⟩ := spec
    cases check with
    | false =>
      cases st with
      | present => exact ⟨rfl, rfl⟩
      | absent =>
        cases ks_exists <;>
          · injection hexit with h2
            rw [← h2] at hcql
            exact absurd rfl hcql
    | true =>
      cases ks_exists with
      | false =>
        cases st <;>
          · injection hexit with h2
            rw [← h2] at hcql
            exact absurd rfl hcql
      | true =>
        cases st with
        | absent =>
          injection hexit with h2
          rw [← h2] at hcql
          exact absurd rfl hcql
        | present =>
          simp only [cassandra_main] at hexit
          cases h : keyspace_is_changed live rf dw dcs with
          | error e =>
            rw [h] at hexit
            cases e <;> simp [failOutcome] at hexit
          | ok b =>
            rw [h] at hexit
            injection hexit with h2
            rw [← h2] at hcql
            exact absurd rfl hcql

/-- Witness for C10: the concrete drop run, and the only-create/alter
property instantiated at a concrete create run whose result carries a
`cql` field. -/
theorem claim_C10_witness :
    cassandra_main false true "" ⟨"ks", .absent, 1, true, none⟩ =
      (.exited { changed := true, keyspace := "ks", cql := none }, ["DROP KEYSPACE ks"]) ∧
    ((⟨"ks", .present, 1, true, none⟩ : KsSpec).state = .present ∧ false = false) :=
  ⟨claim_C10.1 "ks" "" 1 true none,
   claim_C10.2 false false "" ⟨"ks", .present, 1, true, none⟩
     ⟨true, "ks", some (create_alter_keyspace "ks" 1 true none false)⟩ rfl (by simp)⟩

/-- C7: the read handle uses the requested consistency level except for
`ANY`/`EACH_QUORUM`, which fall back to the cluster default (no
execution profile is installed); the write handle uses the requested
level except for `SERIAL`/`LOCAL_SERIAL`; no other level triggers a
fallback on either handle. -/
theorem claim_C7 (hosts : List String) (port : Int)
    (auth : Option (String × String)) (ssl : Bool) (cl : String) (v : Nat)
    (h : List.lookup cl name_to_value = some v) :
    get_read_and_write_sessions hosts port auth ssl cl =
      .ok (⟨hosts, port, auth, ssl,
              if cl = "ANY" ∨ cl = "EACH_QUORUM" then none else some v⟩,
           ⟨hosts, port, auth, ssl,
              if cl = "SERIAL" ∨ cl = "LOCAL_SERIAL" then none else some v⟩) := by
  have hr : (["ANY", "EACH_QUORUM"].contains cl) = decide (cl = "ANY" ∨ cl = "EACH_QUORUM") := by
    by_cases h1 : cl = "ANY" <;> by_cases h2 : cl = "EACH_QUORUM" <;>
      simp [h1, h2, List.contains_cons]
  have hw : (["SERIAL", "LOCAL_SERIAL"].contains cl) =
      decide (cl = "SERIAL" ∨ cl = "LOCAL_SERIAL") := by
    by_cases h1 : cl = "SERIAL" <;> by_cases h2 : cl = "LOCAL_SERIAL" <;>
      simp [h1, h2, List.contains_cons]
  simp only [get_read_and_write_sessions, h, hr, hw]
  by_cases h1 : cl = "ANY" ∨ cl = "EACH_QUORUM" <;>
    by_cases h2 : cl = "SERIAL" ∨ cl = "LOCAL_SERIAL" <;>
      simp [h1, h2]

/-- Witness for C7 at the fallback level `ANY`. -/
theorem claim_C7_witness :
    get_read_and_write_sessions ["127.0.0.1"] 9042 none false "ANY" =
      .ok (⟨["127.0.0.1"], 9042, none, false, none⟩,
           ⟨["127.0.0.1"], 9042, none, false, some 0⟩) := by
  rw [claim_C7 ["127.0.0.1"] 9042 none false "ANY" 0 rfl]
  rfl

/-- C8: when the live replication class is neither `SimpleStrategy` nor
`NetworkTopologyStrategy`, the diff calls `module.fail_json` with a
message naming the offending class (a `SystemExit`, not caught by the
generic handler), returning no diff verdict; the whole invocation
terminates with exactly that message. -/
theorem claim_C8 (live : String) (cfg : PyDict) (cls : PyVal) (name : String)
    (rf : Int) (dw : Bool) (dcs : Option (List (String × Int)))
    (hget : get_keyspace_config live = .ok cfg)
    (hcls : pyGet cfg "class" = some cls)
    (h1 : pyEq cls (.str "SimpleStrategy") = false)
    (h2 : pyEq cls (.str "NetworkTopologyStrategy") = false) :
    keyspace_is_changed_cfg cfg rf dw dcs =
      .error (.failJson ("Unknown Replication strategy: " ++ pyFormatV cls)) ∧
    cassandra_main false true live ⟨name, .present, rf, dw, dcs⟩ =
      (.failed ("Unknown Replication strategy: " ++ pyFormatV cls), []) := by
  have hbody : keyspace_is_changed_cfg cfg rf dw dcs =
      .error (.failJson ("Unknown Replication strategy: " ++ pyFormatV cls)) := by
    unfold keyspace_is_changed_cfg
    rw [hcls]
    simp [h1, h2]
  refine ⟨hbody, ?_⟩
  have hk : keyspace_is_changed live rf dw dcs =
      .error (.failJson ("Unknown Replication strategy: " ++ pyFormatV cls)) := by
    rw [keyspace_is_changed, hget]
    exact hbody
  show (match keyspace_is_changed live rf dw dcs with
        | .ok true => _
        | .ok false => _
        | .error e => (failOutcome e, [])) = _
  rw [hk]
  rfl

/-- Witness for C8: a live keyspace exported with the (real, but
unsupported here) class `OldNetworkTopologyStrategy`. -/
theorem claim_C8_witness :
    cassandra_main false true
      "CREATE KEYSPACE ks WITH replication = \x7b'class': 'OldNetworkTopologyStrategy', 'replication_factor': '3'\x7d AND durable_writes = True;"
      ⟨"ks", .present, 3, true, none⟩ =
      (.failed "Unknown Replication strategy: OldNetworkTopologyStrategy", []) :=
  (claim_C8
    "CREATE KEYSPACE ks WITH replication = \x7b'class': 'OldNetworkTopologyStrategy', 'replication_factor': '3'\x7d AND durable_writes = True;"
    [("class", .str "OldNetworkTopologyStrategy"),
     ("replication_factor", .str "3"),
     ("durable_writes", .bool true)]
    (.str "OldNetworkTopologyStrategy") "ks" 3 true none
    rfl rfl rfl rfl).2

/-- C9: with a live `NetworkTopologyStrategy` class, matching
durable-writes, and an absent (`None`) desired datacenter mapping, the
diff does not return a boolean: iterating `None` raises a `TypeError`,
and the invocation ends in the generic execution-error path
(`"An error occured: ..."`) instead of producing a diff verdict. -/
theorem claim_C9 (live : String) (cfg : PyDict) (name : String)
    (rf : Int) (dw : Bool)
    (hget : get_keyspace_config live = .ok cfg)
    (hcls : pyGet cfg "class" = some (.str "NetworkTopologyStrategy"))
    (hdw : pyGet cfg "durable_writes" = some (.bool dw)) :
    keyspace_is_changed_cfg cfg rf dw none =
      .error (.exc "TypeError: 'NoneType' object is not iterable") ∧
    cassandra_main false true live ⟨name, .present, rf, dw, none⟩ =
      (.failed "An error occured: TypeError: 'NoneType' object is not iterable", []) := by
  have hbody : keyspace_is_changed_cfg cfg rf dw none =
      .error (.exc "TypeError: 'NoneType' object is not iterable") := by
    unfold keyspace_is_changed_cfg
    rw [hcls]
    simp [pyEq, pyGetE, hdw]
  refine ⟨hbody, ?_⟩
  have hk : keyspace_is_changed live rf dw none =
      .error (.exc "TypeError: 'NoneType' object is not iterable") := by
    rw [keyspace_is_changed, hget]
    exact hbody
  show (match keyspace_is_changed live rf dw none with
        | .ok true => _
        | .ok false => _
        | .error e => (failOutcome e, [])) = _
  rw [hk]
  rfl

/-- Witness for C9: a live two-datacenter NetworkTopologyStrategy
keyspace diffed against a desired spec that omits `data_centres`. -/
theorem claim_C9_witness :
    cassandra_main false true
      "CREATE KEYSPACE ks WITH replication = \x7b'class': 'NetworkTopologyStrategy', 'dc1': '3'\x7d AND durable_writes = True;"
      ⟨"ks", .present, 1, true, none⟩ =
      (.failed "An error occured: TypeError: 'NoneType' object is not iterable", []) :=
  (claim_C9
    "CREATE KEYSPACE ks WITH replication = \x7b'class': 'NetworkTopologyStrategy', 'dc1': '3'\x7d AND durable_writes = True;"
    [("class", .str "NetworkTopologyStrategy"),
     ("dc1", .str "3"),
     ("durable_writes", .bool true)]
    "ks" 1 true rfl rfl rfl).2

theorem pyGet_append_some {l1 l2 : PyDict} {k : String} {v : PyVal}
    (h : pyGet l1 k = some v) : pyGet (l1 ++ l2) k = some v := by
  induction l1 with
  | nil => simp [pyGet] at h
  | cons p rest ih =>
    obtain ⟨k1, v1⟩ := p
    rw [pyGet] at h
    rw [List.cons_append, pyGet]
    by_cases hk : k1 = k
    · rw [if_pos hk] at h ⊢
      exact h
    · rw [if_neg hk] at h ⊢
      exact ih h

/-- C2: the diff is reflexive — diffing a desired spec against the live
configuration that is exactly that spec (either strategy, any
durable-writes value) reports no change. -/
theorem claim_C2 (spec : KsSpec) (h : KsSpecWF spec) :
    keyspace_is_changed_cfg (desiredAsLive spec) spec.replication_factor
      spec.durable_writes spec.data_centres = .ok false := by
  obtain ⟨name, st, rf, dw, dcs⟩ := spec
  cases dcs with
  | none =>
    show keyspace_is_changed_cfg
      [("class", .str "SimpleStrategy"),
       ("replication_factor", .int rf),
       ("durable_writes", .bool dw)] rf dw none = .ok false
    unfold keyspace_is_changed_cfg
    simp [pyGet, pyGetE, pyIntV, pyEq]
  | some l =>
    obtain ⟨hnd, hres⟩ := h
    have hmk : ∀ p ∈ l.map (fun p => (p.1, PyVal.int p.2)),
        (p : String × PyVal).1 ≠ "durable_writes" := by
      intro p hp
      obtain ⟨q, hq, rfl⟩ := List.mem_map.mp hp
      exact (hres q hq).2
    have hcls : pyGet (desiredAsLive ⟨name, st, rf, dw, some l⟩) "class" =
        some (.str "NetworkTopologyStrategy") := by
      show pyGet (("class", PyVal.str "NetworkTopologyStrategy") :: _) "class" = _
      rw [pyGet, if_pos rfl]
    have hdwget : pyGet (desiredAsLive ⟨name, st, rf, dw, some l⟩) "durable_writes" =
        some (.bool dw) := by
      show pyGet (("class", PyVal.str "NetworkTopologyStrategy") ::
        (l.map (fun p => (p.1, PyVal.int p.2)) ++ [("durable_writes", PyVal.bool dw)]))
        "durable_writes" = _
      rw [pyGet, if_neg (by decide), pyGet_append_right hmk, pyGet, if_pos rfl]
    have hloop : ntsDcLoop (desiredAsLive ⟨name, st, rf, dw, some l⟩) l false = .ok false := by
      apply ntsDcLoop_self
      intro p hp
      show pyGet (("class", PyVal.str "NetworkTopologyStrategy") ::
        (l.map (fun q => (q.1, PyVal.int q.2)) ++ [("durable_writes", PyVal.bool dw)]))
        p.1 = some (.int p.2)
      rw [pyGet, if_neg (fun hc => (hres p hp).1 hc.symm)]
      exact pyGet_append_some (pyGet_mem_nodup hnd hp)
    have hsweep : ntsRemovedSweep (desiredAsLive ⟨name, st, rf, dw, some l⟩) l = false := by
      show ntsRemovedSweep (("class", PyVal.str "NetworkTopologyStrategy") ::
        (l.map (fun q => (q.1, PyVal.int q.2)) ++ [("durable_writes", PyVal.bool dw)])) l = false
      unfold ntsRemovedSweep pyKeys
      rw [List.any_eq_false]
      intro k hk
      rw [List.map_cons, List.map_append, List.map_map] at hk
      rcases List.mem_cons.mp hk with rfl | hk2
      · simp
      · rcases List.mem_append.mp hk2 with hk3 | hk4
        · obtain ⟨q, hq, rfl⟩ := List.mem_map.mp hk3
          have : (q.1 : String) ∈ l.map Prod.fst := List.mem_map.mpr ⟨q, hq, rfl⟩
          simp [this]
        · have : k = "durable_writes" := by simpa using hk4
          subst this
          simp
    show keyspace_is_changed_cfg (desiredAsLive ⟨name, st, rf, dw, some l⟩)
      rf dw (some l) = .ok false
    unfold keyspace_is_changed_cfg
    rw [hcls]
    simp [pyEq, pyGetE, hdwget, hloop, hsweep]

/-- Witness for C2 at a concrete two-datacenter desired spec with
durable writes disabled. -/
theorem claim_C2_witness :
    keyspace_is_changed_cfg
      (desiredAsLive ⟨"ks", .present, 3, false, some [("london", 3), ("paris", 1)]⟩)
      3 false (some [("london", 3), ("paris", 1)]) = .ok false :=
  claim_C2 ⟨"ks", .present, 3, false, some [("london", 3), ("paris", 1)]⟩
    ⟨by decide, by decide⟩
